import Mathlib

/-!
Verification development for the `vegetation-prediction` notebook
(`challenges/3-sentinel-maps/vegetation-prediction.ipynb`).

The notebook defines a `Dataset` wrapper over raster tiles, a
`Dataloader` (Lightning data module) splitting tiles by a csv table,
and a `CNN_Regression` model.  Pixel values and losses are modelled as
exact rationals (`ℚ`); the file system is an association list from
path to raster.  Bodies the notebook leaves as `TODO` are modelled
from the specification and marked as such in their doc comments.
-/

namespace VegPred

/-- A raster file: named bands, each a flattened list of pixel values. -/
structure Raster where
  bands : List (String × List ℚ)
deriving DecidableEq

/-- The file system: a read-only map from path to raster. -/
abbrev FS := List (String × Raster)

/-- `os.path.join` for the paths the notebook builds. -/
def pathJoin (a b : String) : String := a ++ "/" ++ b

/-- Errors that terminate a run: missing file, malformed raster, bad index. -/
inductive DataError where
  | fileNotFound (path : String)
  | decodeError
  | indexError
deriving DecidableEq

/-- `Dataset.__init__`: stores the base directory, the identifier
list, the requested seasons and the requested spectral bands. -/
structure Dataset where
  data_dir : String
  files : List String
  seasons : List String
  bands : List String
deriving DecidableEq

/-- `self.s2_path = os.path.join(data_dir, 'sentinel2-2020')`. -/
def Dataset.s2_path (d : Dataset) : String := pathJoin d.data_dir "sentinel2-2020"

/-- `self.veg_path = os.path.join(data_dir, 'vegetation-2020')`. -/
def Dataset.veg_path (d : Dataset) : String := pathJoin d.data_dir "vegetation-2020"

/-- `self.s2_bands = [f"{season}_{band}" for season in seasons for band in bands]`. -/
def Dataset.s2_bands (d : Dataset) : List String :=
  d.seasons.flatMap (fun season => d.bands.map (fun band => season ++ "_" ++ band))

/-- `self.veg_bands = ['Percent_Tree_Cover_2020']`. -/
def Dataset.veg_bands : List String := ["Percent_Tree_Cover_2020"]

/-- `Dataset.__len__`: `return len(self.files)`. -/
def Dataset.len (d : Dataset) : Nat := d.files.length

/-- The sentinel-2 raster path compiled by `__getitem__` for identifier `f`:
`os.path.join(self.s2_path, f'{self.files[idx]}.tif')`. -/
def Dataset.s2File (d : Dataset) (f : String) : String :=
  pathJoin d.s2_path (f ++ ".tif")

/-- The vegetation raster path compiled by `__getitem__` for identifier `f`:
`os.path.join(self.veg_path, f'{self.files[idx]}.tif')`. -/
def Dataset.vegFile (d : Dataset) (f : String) : String :=
  pathJoin d.veg_path (f ++ ".tif")

/-- Select the named bands of a raster, in order; `none` when a
requested band is absent (a malformed raster for this pipeline). -/
def selectBands (r : Raster) : List String → Option (List (List ℚ))
  | [] => some []
  | n :: ns =>
    match r.bands.lookup n, selectBands r ns with
    | some v, some tl => some (v :: tl)
    | _, _ => none

/-- Mean of a list of pixel values. -/
def listMean (xs : List ℚ) : ℚ := xs.sum / (xs.length : ℚ)

/-- `Dataset.__getitem__`. The path compilation is from the source; the
body after it is `Modelled from the spec:` the source leaves the read
as `TODO` and the spec says to open and read the requested season/band
channels into a single stacked tensor, read the label raster and
reduce it to its mean value over the tile, and return the
`(tensor, scalar)` pair, with a missing file failing as FileNotFound
and a malformed raster failing as DecodeError. -/
def Dataset.getitem (d : Dataset) (fs : FS) (idx : Nat) :
    Except DataError (List (List ℚ) × ℚ) :=
  match d.files.get? idx with
  | none => .error .indexError
  | some f =>
    match fs.lookup (d.s2File f) with
    | none => .error (.fileNotFound (d.s2File f))
    | some s2raster =>
      match fs.lookup (d.vegFile f) with
      | none => .error (.fileNotFound (d.vegFile f))
      | some vegraster =>
        match selectBands s2raster d.s2_bands with
        | none => .error .decodeError
        | some img =>
          match vegraster.bands.lookup "Percent_Tree_Cover_2020" with
          | none => .error .decodeError
          | some veg =>
            if veg.isEmpty then .error .decodeError
            else .ok (img, listMean veg)

lemma s2_bands_length (d : Dataset) :
    d.s2_bands.length = d.seasons.length * d.bands.length := by
  unfold Dataset.s2_bands
  induction d.seasons with
  | nil => simp
  | cons s ss ih => simp [List.flatMap_cons, ih, Nat.succ_mul, Nat.add_comm]

lemma selectBands_length {r : Raster} {names : List String}
    {img : List (List ℚ)} (h : selectBands r names = some img) :
    img.length = names.length := by
  induction names generalizing img with
  | nil => simp [selectBands] at h; simp [← h]
  | cons n ns ih =>
    simp only [selectBands] at h
    cases hl : r.bands.lookup n with
    | none => simp [hl] at h
    | some v =>
      cases hr : selectBands r ns with
      | none => simp [hl, hr] at h
      | some tl =>
        simp only [hl, hr, Option.some.injEq] at h
        have := ih hr
        simp [← h, this]

lemma selectBands_get {r : Raster} {names : List String}
    {img : List (List ℚ)} (h : selectBands r names = some img) :
    ∀ i, i < names.length →
      (names.get? i).bind (fun n => r.bands.lookup n) = img.get? i := by
  induction names generalizing img with
  | nil => intro i hi; simp at hi
  | cons n ns ih =>
    intro i hi
    simp only [selectBands] at h
    cases hl : r.bands.lookup n with
    | none => simp [hl] at h
    | some v =>
      cases hr : selectBands r ns with
      | none => simp [hl, hr] at h
      | some tl =>
        simp only [hl, hr, Option.some.injEq] at h
        cases i with
        | zero => simp [← h, hl]
        | succ j =>
          have hj : j < ns.length := Nat.lt_of_succ_lt_succ hi
          have := ih hr j hj
          simp only [← h, List.get?_cons_succ]
          simpa using this

/-- One row of the splits csv file: an `identifier` column and a
`split` column. -/
structure Row where
  identifier : String
  split : String
deriving DecidableEq

/-- `Dataloader.__init__`: stores the base directory, the parsed split
table, the season and band lists, and the batch size. -/
structure Dataloader where
  data_dir : String
  split_file : List Row
  seasons : List String
  bands : List String
  batch_size : Nat
deriving DecidableEq

/-- `self.train_files = self.split_file[self.split_file['split'] == 'train']['identifier'].tolist()`. -/
def Dataloader.train_files (dl : Dataloader) : List String :=
  (dl.split_file.filter (fun r => r.split == "train")).map (fun r => r.identifier)

/-- `self.val_files = self.split_file[self.split_file['split'] == 'val']['identifier'].tolist()`. -/
def Dataloader.val_files (dl : Dataloader) : List String :=
  (dl.split_file.filter (fun r => r.split == "val")).map (fun r => r.identifier)

/-- `self.test_files = self.split_file[self.split_file['split'] == 'test']['identifier'].tolist()`. -/
def Dataloader.test_files (dl : Dataloader) : List String :=
  (dl.split_file.filter (fun r => r.split == "test")).map (fun r => r.identifier)

/-- `self.train_dataset = Dataset(data_dir=..., files=self.train_files, ...)`. -/
def Dataloader.train_dataset (dl : Dataloader) : Dataset :=
  ⟨dl.data_dir, dl.train_files, dl.seasons, dl.bands⟩

/-- `self.val_dataset = Dataset(data_dir=..., files=self.val_files, ...)`. -/
def Dataloader.val_dataset (dl : Dataloader) : Dataset :=
  ⟨dl.data_dir, dl.val_files, dl.seasons, dl.bands⟩

/-- `self.test_dataset = Dataset(data_dir=..., files=self.test_files, ...)`. -/
def Dataloader.test_dataset (dl : Dataloader) : Dataset :=
  ⟨dl.data_dir, dl.test_files, dl.seasons, dl.bands⟩

/-- The configuration of a `torch.utils.data.DataLoader` as the
notebook constructs it: wrapped dataset, batch size, shuffle flag. -/
structure TorchDataLoader where
  dataset : Dataset
  batch_size : Nat
  shuffle : Bool
deriving DecidableEq

/-- `Dataloader.train_dataloader`: `DataLoader(self.train_dataset,
batch_size=self.batch_size, shuffle=True)`. -/
def Dataloader.train_dataloader (dl : Dataloader) : TorchDataLoader :=
  ⟨dl.train_dataset, dl.batch_size, true⟩

/-- `Dataloader.val_dataloader`: `DataLoader(self.val_dataset,
batch_size=self.batch_size, shuffle=False)`. -/
def Dataloader.val_dataloader (dl : Dataloader) : TorchDataLoader :=
  ⟨dl.val_dataset, dl.batch_size, false⟩

/-- `Dataloader.test_dataloader`: `DataLoader(self.test_dataset,
batch_size=self.batch_size, shuffle=False)`. -/
def Dataloader.test_dataloader (dl : Dataloader) : TorchDataLoader :=
  ⟨dl.test_dataset, dl.batch_size, false⟩

/-- A layer of the network, as a shape-level descriptor. -/
inductive Layer where
  | conv (inC outC kernel stride : Nat)
  | relu
  | maxpool (kernel : Nat)
  | flatten
  | linear (inF outF : Nat)
deriving DecidableEq

/-- Tensor shapes flowing through the network: a `channels × height ×
width` image, or a flat feature vector. -/
inductive Shape where
  | spatial (c h w : Nat)
  | flat (n : Nat)
deriving DecidableEq

/-- Output size of a convolution or pooling window along one spatial
dimension (PyTorch, padding 0): `(size - kernel) / stride + 1`. -/
def convOut (size kernel stride : Nat) : Nat := (size - kernel) / stride + 1

/-- Shape semantics of one layer; `none` when the layer cannot be
applied to the incoming shape. `MaxPool2d` uses stride = kernel, its
PyTorch default. -/
def Layer.apply : Layer → Shape → Option Shape
  | .conv inC outC k s, .spatial c h w =>
      if c = inC ∧ k ≤ h ∧ k ≤ w ∧ 0 < s then
        some (.spatial outC (convOut h k s) (convOut w k s))
      else none
  | .relu, sh => some sh
  | .maxpool k, .spatial c h w =>
      if k ≤ h ∧ k ≤ w ∧ 0 < k then
        some (.spatial c (convOut h k k) (convOut w k k))
      else none
  | .flatten, .spatial c h w => some (.flat (c * h * w))
  | .linear inF outF, .flat n => if n = inF then some (.flat outF) else none
  | _, _ => none

/-- Run a sequence of layers over a shape. -/
def runShapes : List Layer → Shape → Option Shape
  | [], sh => some sh
  | l :: ls, sh => (l.apply sh).bind (runShapes ls)

/-- `CNN_Regression.__init__` hyperparameters: input shape (channels,
height, width), learning rate, and output dimension (default 1). -/
structure CNN_Regression where
  input_shape : Nat × Nat × Nat
  learning_rate : ℚ
  output_dim : Nat := 1
deriving DecidableEq

/-- `self.input_channels = input_shape[0]`. -/
def CNN_Regression.input_channels (m : CNN_Regression) : Nat := m.input_shape.1

/-- The input shape as a spatial tensor shape. -/
def CNN_Regression.inputShape (m : CNN_Regression) : Shape :=
  Shape.spatial m.input_shape.1 m.input_shape.2.1 m.input_shape.2.2

/-- `CNN_Regression.feature_extractor` as a layer sequence:
`relu(conv1) → pool1(relu(conv2)) → relu(conv3) → pool2(relu(conv4))`
with `conv1 = Conv2d(input_channels, 32, 3, stride=1)`,
`conv2 = Conv2d(32, 32, 3, stride=2)`, `conv3 = Conv2d(32, 64, 3, stride=2)`,
`conv4 = Conv2d(64, 64, 3, stride=2)`, `pool1 = pool2 = MaxPool2d(2)`. -/
def CNN_Regression.feature_layers (m : CNN_Regression) : List Layer :=
  [Layer.conv m.input_channels 32 3 1, Layer.relu,
   Layer.conv 32 32 3 2, Layer.relu, Layer.maxpool 2,
   Layer.conv 32 64 3 2, Layer.relu,
   Layer.conv 64 64 3 2, Layer.relu, Layer.maxpool 2]

/-- `CNN_Regression._get_output_shape`: run the conv layers on the
configured input shape and flatten, giving `hidden_dim`. -/
def CNN_Regression.get_output_shape (m : CNN_Regression) : Option Nat :=
  match runShapes m.feature_layers m.inputShape with
  | some (Shape.spatial c h w) => some (c * h * w)
  | _ => none

/-- The regression head declared in `__init__`:
`fc1 = Linear(hidden_dim, 512)`, `fc2 = Linear(512, 256)`,
`fc3 = Linear(256, 128)`, `output_layer = Linear(128, output_dim)`.
Their composition order in `forward` is `Modelled from the spec:` the
source leaves that pass as `TODO` and the spec says the flattened
features feed a fully connected regression head producing one scalar. -/
def CNN_Regression.head_layers (m : CNN_Regression) (hidden_dim : Nat) : List Layer :=
  [Layer.linear hidden_dim 512, Layer.linear 512 256,
   Layer.linear 256 128, Layer.linear 128 m.output_dim]

/-- `CNN_Regression.forward` as a layer sequence: the feature
extractor, the flatten `x.view(x.size(0), -1)`, then the head. -/
def CNN_Regression.model_layers (m : CNN_Regression) (hidden_dim : Nat) : List Layer :=
  m.feature_layers ++ [Layer.flatten] ++ m.head_layers hidden_dim

/-- Is the layer a convolution? -/
def Layer.isConv : Layer → Bool
  | .conv _ _ _ _ => true
  | _ => false

/-- Is the layer a max pool? -/
def Layer.isPool : Layer → Bool
  | .maxpool _ => true
  | _ => false

/-- Is the layer fully connected? -/
def Layer.isLinear : Layer → Bool
  | .linear _ _ => true
  | _ => false

/-- Every convolution in the list is immediately followed by a ReLU. -/
def convsFollowedByRelu : List Layer → Bool
  | [] => true
  | Layer.conv _ _ _ _ :: Layer.relu :: ls => convsFollowedByRelu (Layer.relu :: ls)
  | Layer.conv _ _ _ _ :: _ => false
  | _ :: ls => convsFollowedByRelu ls

/-- `nn.MSELoss()`: mean of elementwise squared differences. -/
def mseLoss (pred target : List ℚ) : ℚ :=
  (List.zipWith (fun p t => (p - t) ^ 2) pred target).sum / (pred.length : ℚ)

/-- `CNN_Regression.compute_loss`, parametric in the network function
`f` applied to each batch item. The source body is
`Modelled from the spec:` the forward pass and loss computation are
`TODO` and the spec says the loss is the mean squared error between
predicted and true mean vegetation percentage; `self.criterion` is
`nn.MSELoss()` in the source. -/
def CNN_Regression.compute_loss {α : Type} (f : α → ℚ) (batch : List α × List ℚ) : ℚ :=
  mseLoss (batch.1.map f) batch.2

/-- The mutable state a Lightning module carries during a run: the
model parameters and the metric log. -/
structure ModelState where
  params : List ℚ
  logged : List (String × ℚ)
deriving DecidableEq

/-- `CNN_Regression.validation_step`: `loss = self.compute_loss(batch);
self.log("val_loss", loss, ...); return loss`. The body touches no
parameter and calls no optimizer. -/
def CNN_Regression.validation_step {α : Type} (f : α → ℚ) (s : ModelState)
    (batch : List α × List ℚ) : ModelState × ℚ :=
  let loss := CNN_Regression.compute_loss f batch
  (⟨s.params, s.logged ++ [("val_loss", loss)]⟩, loss)

/-- `__getitem__` threaded through the mutable-object view: the method
body reads `self.files`, `self.s2_path`, `self.veg_path` and assigns
no attribute, so the dataset object after the call is the object
before it. -/
def Dataset.getitemCall (d : Dataset) (fs : FS) (idx : Nat) :
    Dataset × Except DataError (List (List ℚ) × ℚ) :=
  (d, d.getitem fs idx)

/-- Perform a sequence of `__getitem__` calls on the dataset object. -/
def getitemCalls (fs : FS) : Dataset → List Nat → Dataset
  | d, [] => d
  | d, i :: is => getitemCalls fs (d.getitemCall fs i).1 is

/-- Sample data used to instantiate hypotheses at concrete inputs. -/
def sampleDataset : Dataset := ⟨"data", ["tile1"], ["spring"], ["B04", "B08"]⟩

/-- A sample sentinel-2 raster holding the two requested channels. -/
def sampleS2 : Raster := ⟨[("spring_B04", [1, 2]), ("spring_B08", [3, 5])]⟩

/-- A sample vegetation raster with the 2020 percent-tree-cover band. -/
def sampleVeg : Raster := ⟨[("Percent_Tree_Cover_2020", [10, 20])]⟩

/-- A sample file system holding both rasters of `tile1`. -/
def sampleFS : FS :=
  [("data/sentinel2-2020/tile1.tif", sampleS2),
   ("data/vegetation-2020/tile1.tif", sampleVeg)]

/-- A sample data module over a three-row split table. -/
def sampleDL : Dataloader :=
  ⟨"data", [⟨"a", "train"⟩, ⟨"b", "val"⟩, ⟨"c", "test"⟩], ["spring"], ["B04"], 8⟩

/-- A sample data module whose single row has a nonstandard split value. -/
def sampleDLBad : Dataloader :=
  ⟨"data", [⟨"a", "training"⟩], ["spring"], ["B04"], 8⟩

lemma mem_split_files {t : List Row} {sp x : String} :
    x ∈ (t.filter (fun r => r.split == sp)).map (fun r => r.identifier) ↔
      ∃ r, r ∈ t ∧ r.identifier = x ∧ r.split = sp := by
  simp only [List.mem_map, List.mem_filter, beq_iff_eq]
  exact ⟨fun ⟨r, ⟨h1, h2⟩, h3⟩ => ⟨r, h1, h3, h2⟩,
    fun ⟨r, h1, h2, h3⟩ => ⟨r, ⟨h1, h3⟩, h2⟩⟩

lemma getitemCalls_id (fs : FS) (d : Dataset) (idxs : List Nat) :
    getitemCalls fs d idxs = d := by
  induction idxs with
  | nil => rfl
  | cons i is ih => simpa [getitemCalls, Dataset.getitemCall] using ih

/-- C3: for every split table that is a genuine split assignment
(each row carries one of the three split values, and rows agree on the
split of a shared identifier), the train, validation and test
identifier lists produced by the `Dataloader` constructor are pairwise
disjoint and their union is exactly the set of identifiers of the
table. -/
theorem split_partition (dl : Dataloader)
    (hsplit : ∀ r ∈ dl.split_file,
      r.split = "train" ∨ r.split = "val" ∨ r.split = "test")
    (hfun : ∀ r ∈ dl.split_file, ∀ s ∈ dl.split_file,
      r.identifier = s.identifier → r.split = s.split) :
    (∀ x, ¬(x ∈ dl.train_files ∧ x ∈ dl.val_files)) ∧
    (∀ x, ¬(x ∈ dl.train_files ∧ x ∈ dl.test_files)) ∧
    (∀ x, ¬(x ∈ dl.val_files ∧ x ∈ dl.test_files)) ∧
    (∀ x, x ∈ dl.split_file.map (fun r => r.identifier) ↔
      x ∈ dl.train_files ∨ x ∈ dl.val_files ∨ x ∈ dl.test_files) := by
  have key : ∀ (sp₁ sp₂ : String), sp₁ ≠ sp₂ →
      ∀ x, ¬(x ∈ (dl.split_file.filter (fun r => r.split == sp₁)).map
              (fun r => r.identifier) ∧
            x ∈ (dl.split_file.filter (fun r => r.split == sp₂)).map
              (fun r => r.identifier)) := by
    intro sp₁ sp₂ hne x ⟨h₁, h₂⟩
    obtain ⟨r, hr, hrx, hrs⟩ := mem_split_files.mp h₁
    obtain ⟨s, hs, hsx, hss⟩ := mem_split_files.mp h₂
    exact hne (hrs ▸ hss ▸ hfun r hr s hs (hrx.trans hsx.symm))
  refine ⟨key "train" "val" (by decide), key "train" "test" (by decide),
    key "val" "test" (by decide), ?_⟩
  intro x
  constructor
  · intro hx
    obtain ⟨r, hr, hrx⟩ := List.mem_map.mp hx
    rcases hsplit r hr with h | h | h
    · exact Or.inl (mem_split_files.mpr ⟨r, hr, hrx, h⟩)
    · exact Or.inr (Or.inl (mem_split_files.mpr ⟨r, hr, hrx, h⟩))
    · exact Or.inr (Or.inr (mem_split_files.mpr ⟨r, hr, hrx, h⟩))
  · intro hx
    rcases hx with h | h | h <;>
      · obtain ⟨r, hr, hrx, _⟩ := mem_split_files.mp h
        exact List.mem_map.mpr ⟨r, hr, hrx⟩

/-- Witness for C3 at a concrete three-row split table. -/
theorem split_partition_witness :
    (¬("a" ∈ sampleDL.train_files ∧ "a" ∈ sampleDL.val_files)) ∧
    ("b" ∈ sampleDL.split_file.map (fun r => r.identifier) ↔
      "b" ∈ sampleDL.train_files ∨ "b" ∈ sampleDL.val_files ∨
        "b" ∈ sampleDL.test_files) :=
  ⟨(split_partition sampleDL (by decide) (by decide)).1 "a",
   (split_partition sampleDL (by decide) (by decide)).2.2.2 "b"⟩

/-- C9: a row whose split value is none of "train", "val", "test" is
silently dropped by the `Dataloader` constructor: provided no other
row maps the same identifier to a standard split, the identifier ends
up in none of the three file lists — the filters are exact string
comparisons and raise no error. -/
theorem nonstandard_split_dropped (dl : Dataloader) (r : Row)
    (_hr : r ∈ dl.split_file)
    (huniq : ∀ s ∈ dl.split_file, s.identifier = r.identifier → s.split = r.split)
    (h1 : r.split ≠ "train") (h2 : r.split ≠ "val") (h3 : r.split ≠ "test") :
    r.identifier ∉ dl.train_files ∧ r.identifier ∉ dl.val_files ∧
      r.identifier ∉ dl.test_files := by
  refine ⟨fun hx => ?_, fun hx => ?_, fun hx => ?_⟩ <;>
    · obtain ⟨s, hs, hsx, hss⟩ := mem_split_files.mp hx
      first
      | exact h1 ((huniq s hs hsx).symm.trans hss)
      | exact h2 ((huniq s hs hsx).symm.trans hss)
      | exact h3 ((huniq s hs hsx).symm.trans hss)

/-- Witness for C9 at a one-row table whose split value is "training". -/
theorem nonstandard_split_dropped_witness :
    "a" ∉ sampleDLBad.train_files ∧ "a" ∉ sampleDLBad.val_files ∧
      "a" ∉ sampleDLBad.test_files :=
  nonstandard_split_dropped sampleDLBad ⟨"a", "training"⟩ (by decide)
    (by decide) (by decide) (by decide) (by decide)

/-- C4: the train dataloader is built with shuffling enabled; the val
and test dataloaders are built with shuffling disabled and wrap their
datasets with the file lists in their original order. -/
theorem shuffle_train_only (dl : Dataloader) :
    (dl.train_dataloader).shuffle = true ∧
    (dl.val_dataloader).shuffle = false ∧
    (dl.test_dataloader).shuffle = false ∧
    (dl.train_dataloader).dataset.files = dl.train_files ∧
    (dl.val_dataloader).dataset.files = dl.val_files ∧
    (dl.test_dataloader).dataset.files = dl.test_files :=
  ⟨rfl, rfl, rfl, rfl, rfl, rfl⟩

/-- C7: `validation_step` computes and logs the batch loss but leaves
the model parameters exactly as they were; the returned loss is the
one `compute_loss` gives. -/
theorem validation_step_preserves_params {α : Type} (f : α → ℚ)
    (s : ModelState) (batch : List α × List ℚ) :
    (CNN_Regression.validation_step f s batch).1.params = s.params ∧
    (CNN_Regression.validation_step f s batch).1.logged =
      s.logged ++ [("val_loss", CNN_Regression.compute_loss f batch)] ∧
    (CNN_Regression.validation_step f s batch).2 =
      CNN_Regression.compute_loss f batch :=
  ⟨rfl, rfl, rfl⟩

/-- C10: the length a `Dataset` reports is the length of the
identifier list it was built from, and it is unchanged by any sequence
of `__getitem__` calls. -/
theorem dataset_len_stable (dir : String) (files seasons bands : List String)
    (fs : FS) (idxs : List Nat) :
    (Dataset.mk dir files seasons bands).len = files.length ∧
    (getitemCalls fs (Dataset.mk dir files seasons bands) idxs).len =
      files.length := by
  refine ⟨rfl, ?_⟩
  rw [getitemCalls_id]
  rfl

/-- C1: when the tile's rasters exist and decode, `__getitem__`
returns a stacked tensor together with one scalar label, and the
tensor's channel count is the number of requested seasons times the
number of requested bands. -/
theorem getitem_channel_count (d : Dataset) (fs : FS) (idx : Nat) (f : String)
    (s2r vegr : Raster) (img : List (List ℚ)) (veg : List ℚ)
    (hf : d.files.get? idx = some f)
    (hs2 : fs.lookup (d.s2File f) = some s2r)
    (hveg : fs.lookup (d.vegFile f) = some vegr)
    (himg : selectBands s2r d.s2_bands = some img)
    (hband : vegr.bands.lookup "Percent_Tree_Cover_2020" = some veg)
    (hne : veg.isEmpty = false) :
    d.getitem fs idx = .ok (img, listMean veg) ∧
    img.length = d.seasons.length * d.bands.length := by
  constructor
  · simp only [Dataset.getitem, hf, hs2, hveg, himg, hband, hne]
    simp
  · rw [selectBands_length himg, s2_bands_length]

/-- Witness for C1 on a concrete one-tile file system: one season and
two bands give a two-channel tensor. -/
theorem getitem_channel_count_witness :
    sampleDataset.getitem sampleFS 0 =
      .ok ([[1, 2], [3, 5]], listMean [10, 20]) ∧
    ([[(1 : ℚ), 2], [3, 5]] : List (List ℚ)).length =
      sampleDataset.seasons.length * sampleDataset.bands.length :=
  getitem_channel_count sampleDataset sampleFS 0 "tile1" sampleS2 sampleVeg
    [[1, 2], [3, 5]] [10, 20] (by decide) (by decide) (by decide) (by decide)
    (by decide) (by decide)

/-- C2: `__getitem__` stacks exactly the requested season/band
channels in their listed order, reduces the label raster to its mean
(sum over count) and returns the pair. -/
theorem getitem_stacks_and_reduces (d : Dataset) (fs : FS) (idx : Nat)
    (f : String) (s2r vegr : Raster) (img : List (List ℚ)) (veg : List ℚ)
    (hf : d.files.get? idx = some f)
    (hs2 : fs.lookup (d.s2File f) = some s2r)
    (hveg : fs.lookup (d.vegFile f) = some vegr)
    (himg : selectBands s2r d.s2_bands = some img)
    (hband : vegr.bands.lookup "Percent_Tree_Cover_2020" = some veg)
    (hne : veg.isEmpty = false) :
    d.getitem fs idx = .ok (img, veg.sum / (veg.length : ℚ)) ∧
    img.length = d.s2_bands.length ∧
    (∀ i, i < d.s2_bands.length →
      (d.s2_bands.get? i).bind (fun n => s2r.bands.lookup n) = img.get? i) := by
  refine ⟨?_, selectBands_length himg, selectBands_get himg⟩
  simp only [Dataset.getitem, hf, hs2, hveg, himg, hband, hne]
  simp [listMean]

/-- Witness for C2: the second stacked channel of the sample tile is
the raster's `spring_B08` band, and the label is the raster mean. -/
theorem getitem_stacks_and_reduces_witness :
    sampleDataset.getitem sampleFS 0 =
      .ok ([[1, 2], [3, 5]], ([(10 : ℚ), 20].sum / (([(10 : ℚ), 20].length : ℚ)))) ∧
    (sampleDataset.s2_bands.get? 1).bind (fun n => sampleS2.bands.lookup n) =
      ([[(1 : ℚ), 2], [3, 5]] : List (List ℚ)).get? 1 :=
  ⟨(getitem_stacks_and_reduces sampleDataset sampleFS 0 "tile1" sampleS2
      sampleVeg [[1, 2], [3, 5]] [10, 20] (by decide) (by decide) (by decide)
      (by decide) (by decide) (by decide)).1,
   (getitem_stacks_and_reduces sampleDataset sampleFS 0 "tile1" sampleS2
      sampleVeg [[1, 2], [3, 5]] [10, 20] (by decide) (by decide) (by decide)
      (by decide) (by decide) (by decide)).2.2 1 (by decide)⟩

/-- C8: a missing raster makes `__getitem__` fail with a FileNotFound
error carrying the path of the missing file — the imagery raster when
it is absent, else the label raster — and no pair is returned. -/
theorem getitem_missing_file_error (d : Dataset) (fs : FS) (idx : Nat)
    (f : String) (hf : d.files.get? idx = some f) :
    (fs.lookup (d.s2File f) = none →
      d.getitem fs idx = .error (.fileNotFound (d.s2File f))) ∧
    (∀ s2r, fs.lookup (d.s2File f) = some s2r →
      fs.lookup (d.vegFile f) = none →
      d.getitem fs idx = .error (.fileNotFound (d.vegFile f))) := by
  constructor
  · intro hmiss
    simp only [Dataset.getitem, hf, hmiss]
  · intro s2r hs2 hmiss
    simp only [Dataset.getitem, hf, hs2, hmiss]

/-- Witness for C8: on an empty file system the sample tile's imagery
raster is missing and `__getitem__` returns its FileNotFound error. -/
theorem getitem_missing_file_error_witness :
    sampleDataset.getitem [] 0 =
      .error (.fileNotFound "data/sentinel2-2020/tile1.tif") :=
  (getitem_missing_file_error sampleDataset [] 0 "tile1" (by decide)).1
    (by decide)

lemma runShapes_append (l₁ l₂ : List Layer) (s : Shape) :
    runShapes (l₁ ++ l₂) s = (runShapes l₁ s).bind (runShapes l₂) := by
  induction l₁ generalizing s with
  | nil => simp [runShapes]
  | cons l ls ih =>
    simp only [List.cons_append, runShapes]
    cases l.apply s with
    | none => simp
    | some s₂ => simp [ih]

/-- A concrete model instance: 2 input channels on 100 × 100 tiles. -/
def sampleModel : CNN_Regression := ⟨(2, 100, 100), 1 / 100, 1⟩

/-- C5: the model is four convolutions (strides 1, 2, 2, 2), each
immediately followed by a ReLU, with two max-pool stages; the feature
map is flattened and fed to the fully connected head (three hidden
linear layers and the output layer), and on the configured input
shape the network outputs a single scalar. -/
theorem cnn_architecture (m : CNN_Regression) (hidden_dim : Nat)
    (hout : m.output_dim = 1)
    (hshape : m.get_output_shape = some hidden_dim) :
    ((m.model_layers hidden_dim).filter Layer.isConv).length = 4 ∧
    convsFollowedByRelu (m.model_layers hidden_dim) = true ∧
    ((m.model_layers hidden_dim).filter Layer.isPool).length = 2 ∧
    ((m.model_layers hidden_dim).filter Layer.isLinear).length = 4 ∧
    (m.model_layers hidden_dim).getLast? =
      some (Layer.linear 128 m.output_dim) ∧
    runShapes (m.model_layers hidden_dim) m.inputShape =
      some (Shape.flat 1) := by
  refine ⟨rfl, rfl, rfl, rfl, rfl, ?_⟩
  unfold CNN_Regression.get_output_shape at hshape
  cases hr : runShapes m.feature_layers m.inputShape with
  | none => rw [hr] at hshape; simp at hshape
  | some sh =>
    cases sh with
    | flat n => rw [hr] at hshape; simp at hshape
    | spatial c h w =>
      rw [hr] at hshape
      simp only [Option.some.injEq] at hshape
      unfold CNN_Regression.model_layers
      rw [runShapes_append, runShapes_append, hr]
      simp [runShapes, Layer.apply, CNN_Regression.head_layers, hshape, hout]

/-- Witness for C5: the concrete model on its 2 × 100 × 100 input
shape (hidden dimension 256 = 64 × 2 × 2). -/
theorem cnn_architecture_witness :
    ((sampleModel.model_layers 256).filter Layer.isConv).length = 4 ∧
    convsFollowedByRelu (sampleModel.model_layers 256) = true ∧
    ((sampleModel.model_layers 256).filter Layer.isPool).length = 2 ∧
    ((sampleModel.model_layers 256).filter Layer.isLinear).length = 4 ∧
    (sampleModel.model_layers 256).getLast? =
      some (Layer.linear 128 sampleModel.output_dim) ∧
    runShapes (sampleModel.model_layers 256) sampleModel.inputShape =
      some (Shape.flat 1) :=
  cnn_architecture sampleModel 256 rfl (by decide)

lemma zipWith_sq_sum (p q : List ℚ) (h : p.length = q.length) :
    (List.zipWith (fun a b => (a - b) ^ 2) p q).sum =
      ∑ i in Finset.range p.length, (p.getD i 0 - q.getD i 0) ^ 2 := by
  induction p generalizing q with
  | nil => simp
  | cons a as ih =>
    cases q with
    | nil => simp at h
    | cons b bs =>
      simp only [List.length_cons] at h
      have h := Nat.succ_injective h
      simp only [List.zipWith_cons_cons, List.sum_cons, List.length_cons]
      rw [Finset.sum_range_succ']
      simp only [List.getD_cons_succ, List.getD_cons_zero]
      rw [ih bs h]
      ring

/-- C6: the loss `compute_loss` produces for a batch is the mean
squared error between the predicted values and the true labels. -/
theorem compute_loss_is_mse {α : Type} (f : α → ℚ) (inputs : List α)
    (labels : List ℚ) (h : inputs.length = labels.length) :
    CNN_Regression.compute_loss f (inputs, labels) =
      (∑ i in Finset.range inputs.length,
        ((inputs.map f).getD i 0 - labels.getD i 0) ^ 2) /
        (inputs.length : ℚ) := by
  unfold CNN_Regression.compute_loss mseLoss
  rw [zipWith_sq_sum (inputs.map f) labels (by simpa using h)]
  simp

/-- Witness for C6 on a two-item batch with identity network. -/
theorem compute_loss_is_mse_witness :
    ([(1 : ℚ), 3].length = [(0 : ℚ), 1].length) ∧
    CNN_Regression.compute_loss (fun q : ℚ => q) ([(1 : ℚ), 3], [(0 : ℚ), 1]) =
      (∑ i in Finset.range [(1 : ℚ), 3].length,
        (([(1 : ℚ), 3].map (fun q : ℚ => q)).getD i 0 -
          [(0 : ℚ), 1].getD i 0) ^ 2) / ([(1 : ℚ), 3].length : ℚ) :=
  ⟨rfl, compute_loss_is_mse (fun q : ℚ => q) [(1 : ℚ), 3] [(0 : ℚ), 1] rfl⟩

end VegPred
